import Mathlib

/-!
Verification of the python-task-scheduler repository: a shallow embedding of
the watchdog thrash guard (src/watchdog.py), the schedule compiler and
scheduling loop (src/scheduler.py, src/validate_jobs.py), and the process
supervisor and command executor (src/scheduler_core.py), with theorems about
the specified properties.

Timestamps are modelled as integers counting minutes (the code uses
`datetime` values; only ordering and addition of fixed `timedelta`s matter,
so an ordered additive model is faithful).  Process ids are naturals.
Filesystem persistence is modelled by threading the persisted record through
each operation: the `history` component of an operation's result is exactly
the value the code last wrote with `save_restart_history`.
-/

namespace TaskSched

/-! ### Watchdog thrash guard (src/watchdog.py) -/

/-- Thrashing detection settings, watchdog.py lines 70-72. -/
def MAX_RESTARTS_IN_WINDOW : Nat := 5

/-- Time window (minutes) for counting restarts, watchdog.py line 71. -/
def RESTART_WINDOW_MINUTES : Int := 15

/-- Backoff duration (minutes) after thrashing, watchdog.py line 72. -/
def BACKOFF_MINUTES : Int := 30

/-- The persisted restart record (watchdog.py `load_restart_history` /
`save_restart_history`): a list of restart timestamps and an optional
backoff-expiry timestamp. -/
structure RestartHistory where
  restarts : List Int
  backoff_until : Option Int
deriving DecidableEq, Repr

/-- watchdog.py `record_restart` (lines 146-169): append `now`, drop entries
at or before `now - RESTART_WINDOW_MINUTES` (the code keeps `dt > cutoff`),
and if the remaining count reaches `MAX_RESTARTS_IN_WINDOW` set
`backoff_until := now + BACKOFF_MINUTES` and report `false` (do not start);
otherwise report `true`.  Both branches save, so the returned history is the
persisted one. -/
def record_restart (now : Int) (h : RestartHistory) : RestartHistory × Bool :=
  let cutoff := now - RESTART_WINDOW_MINUTES
  let pruned := (h.restarts ++ [now]).filter (fun dt => decide (cutoff < dt))
  if MAX_RESTARTS_IN_WINDOW ≤ pruned.length then
    ({ restarts := pruned, backoff_until := some (now + BACKOFF_MINUTES) }, false)
  else
    ({ restarts := pruned, backoff_until := h.backoff_until }, true)

/-- watchdog.py `is_in_backoff` (lines 171-189): if `backoff_until` is set
and `now` is still before it, report `true` (skip).  If it is set but
expired, clear it, reset `restarts` to empty, save, and report `false`.
The first component is the persisted history after the call. -/
def is_in_backoff (now : Int) (h : RestartHistory) : RestartHistory × Bool :=
  match h.backoff_until with
  | some bu =>
      if now < bu then (h, true)
      else ({ restarts := [], backoff_until := none }, false)
  | none => (h, false)

/-- Outcome of `psutil.Process(pid)` plus reading its command line: the
process exists with the given command line, or the pid is dead, or access
is denied. -/
inductive ProcInspect where
  | ok (cmdline : String)
  | noSuchProcess
  | accessDenied
deriving DecidableEq, Repr

/-- ASCII lower-casing of one character, the effect of Python `.lower()` on
the command-line strings involved. -/
def lowerChar (c : Char) : Char :=
  if 'A' ≤ c ∧ c ≤ 'Z' then Char.ofNat (c.toNat + 32) else c

/-- ASCII lower-casing of a string (Python `str.lower`). -/
def lowerStr (s : String) : String :=
  String.mk (s.data.map lowerChar)

/-- Whether `needle` occurs as a contiguous run inside `hay` (Python
`needle in hay` on strings), by scanning the suffixes. -/
def charsContain (hay needle : List Char) : Bool :=
  match hay with
  | [] => needle.isEmpty
  | _ :: rest => needle.isPrefixOf hay || charsContain rest needle

/-- String containment test used for `'scheduler.py' in cmdline`. -/
def strContains (hay needle : String) : Bool :=
  charsContain hay.data needle.data

/-- watchdog.py `is_process_running` (lines 74-92): true when the process
exists and its lower-cased command line contains `scheduler.py`; false when
the pid is dead or the command line does not match; **true** when access is
denied (the code logs a warning and assumes the scheduler is running). -/
def is_process_running (inspect : Nat → ProcInspect) (pid : Nat) : Bool :=
  match inspect pid with
  | .ok c => strContains (lowerStr c) "scheduler.py"
  | .noSuchProcess => false
  | .accessDenied => true

/-- watchdog.py `start_scheduler` (lines 200-247): reload the persisted
history, re-check backoff, record the restart attempt, and only then spawn
the scheduler (`spawnRaises` models `subprocess.Popen` raising).  Returns
(persisted history, whether a process was spawned, return value).  Note the
code returns `True` whether or not the PID file appeared (lines 238-243). -/
def watchdog_start (now : Int) (persisted : RestartHistory) (spawnRaises : Bool) :
    RestartHistory × Bool × Bool :=
  let p1 := is_in_backoff now persisted
  if p1.2 then (p1.1, false, false)
  else
    let p2 := record_restart now p1.1
    if p2.2 = false then (p2.1, false, false)
    else if spawnRaises then (p2.1, false, false)
    else (p2.1, true, true)

/-- Observable outcome of one watchdog check: the persisted history at the
end, whether a liveness probe (`is_process_running`) ran, whether a
scheduler process was spawned, and the boolean the check returned. -/
structure WatchdogRun where
  history : RestartHistory
  probed : Bool
  spawned : Bool
  ret : Bool
deriving DecidableEq, Repr

/-- watchdog.py `check_and_restart` (lines 249-277): skip everything while
in backoff; otherwise read the PID file (`pidFile` is the parsed content,
`none` for a missing or malformed file), probe liveness when a pid was
found, and start the scheduler when the pid is absent or dead. -/
def check_and_restart (now : Int) (persisted : RestartHistory)
    (pidFile : Option Nat) (inspect : Nat → ProcInspect) (spawnRaises : Bool) :
    WatchdogRun :=
  let p1 := is_in_backoff now persisted
  if p1.2 then ⟨p1.1, false, false, false⟩
  else
    match pidFile with
    | none =>
        let s := watchdog_start now p1.1 spawnRaises
        ⟨s.1, false, s.2.1, s.2.2⟩
    | some pid =>
        if is_process_running inspect pid then ⟨p1.1, true, false, true⟩
        else
          let s := watchdog_start now p1.1 spawnRaises
          ⟨s.1, true, s.2.1, s.2.2⟩

/-! ### Jobs, schema validation (src/validate_jobs.py) and the schedule
compiler (src/scheduler.py `schedule_job`) -/

/-- One job from jobs.yaml, after YAML parsing.  `atTime` is the source's
`at` field (a Lean keyword); `every` is optional in the config and defaults
to 1 inside `schedule_job`. -/
structure Job where
  name : String
  command : String
  enabled : Bool
  unit : String
  every : Option Nat
  atTime : Option String
  day : Option String
  day_of_month : Option Nat
deriving DecidableEq, Repr

/-- The seven allowed `unit` values, validate_jobs.py JOB_SCHEMA. -/
def allowed_units : List String :=
  ["seconds", "minutes", "hours", "days", "weeks", "months", "startup"]

/-- The weekday names allowed for `day` by JOB_SCHEMA (validate_jobs.py
lines 34-38), which are also exactly the weekday attributes the schedule
library exposes (probed by `hasattr` in scheduler.py line 159). -/
def weekday_names : List String :=
  ["monday", "tuesday", "wednesday", "thursday", "friday", "saturday", "sunday"]

/-- The unit strings that name an attribute of a `schedule.every(..)` job
object; `getattr(every, unit)` in scheduler.py line 155 succeeds exactly for
these (months and startup are special-cased earlier). -/
def schedule_units : List String :=
  ["seconds", "minutes", "hours", "days", "weeks"]

/-- The `at` regex of JOB_SCHEMA: two digits, a colon and two digits, or a
colon and two digits. -/
def at_format_ok (s : String) : Bool :=
  match s.data with
  | [a, b, ':', c, d] => a.isDigit && b.isDigit && c.isDigit && d.isDigit
  | [':', c, d] => c.isDigit && d.isDigit
  | _ => false

/-- validate_jobs.py VALID_FIELDS_BY_UNIT: whether an optional schedule
field is relevant for a unit (strict validation rejects irrelevant ones). -/
def field_valid_for_unit (unit field : String) : Bool :=
  match unit with
  | "seconds" => field = "every"
  | "minutes" => field = "every" || field = "atTime"
  | "hours" => field = "every" || field = "atTime"
  | "days" => field = "every" || field = "atTime"
  | "weeks" => field = "every" || field = "atTime" || field = "day"
  | "months" => field = "atTime" || field = "day_of_month"
  | "startup" => false
  | _ => false

/-- validate_jobs.py REQUIRED_FIELDS_BY_UNIT: `every` is required for the
periodic units, nothing extra for months and startup. -/
def every_required (unit : String) : Bool :=
  unit = "seconds" || unit = "minutes" || unit = "hours" ||
  unit = "days" || unit = "weeks"

/-- validate_jobs.py `validate_config` restricted to one job: the cerberus
schema constraints on the schedule fields plus the strict field-relevance
check of `validate_schedule_fields`.  `true` means the job passes. -/
def validate_job (j : Job) : Bool :=
  j.unit ∈ allowed_units &&
  (match j.every with
   | none => !every_required j.unit
   | some n => 1 ≤ n && field_valid_for_unit j.unit "every") &&
  (match j.atTime with
   | none => true
   | some s => at_format_ok s && field_valid_for_unit j.unit "atTime") &&
  (match j.day with
   | none => true
   | some d => d ∈ weekday_names && field_valid_for_unit j.unit "day") &&
  (match j.day_of_month with
   | none => true
   | some n => 1 ≤ n && n ≤ 31 && field_valid_for_unit j.unit "day_of_month")

/-- The compiled trigger produced by scheduler.py `schedule_job`: the job is
disabled, runs once at startup, is a daily trigger gated on a day of month,
or is a periodic trigger (with the weekday constraint kept only when the
schedule library recognised the day). -/
inductive ScheduleOutcome where
  | disabled
  | startupOnce
  | monthly (dom : Nat) (atTime : Option String)
  | periodic (every : Nat) (unit : String) (day : Option String)
      (atTime : Option String)
deriving DecidableEq, Repr

/-- scheduler.py `schedule_job` (lines 120-183).  A disabled job is skipped;
`startup` jobs are deferred to initialisation; `months` becomes a daily
trigger carrying `day_of_month` (defaulting to 1); other units go through
`getattr(every, unit)`, which raises `AttributeError` for an unknown unit —
the handler logs and **re-raises**, modelled as `Except.error`.  For weekly
jobs an unrecognised `day` (after lower-casing) is dropped with only a
warning and the job is scheduled without the day constraint (lines
166-169). -/
def schedule_job (j : Job) : Except String ScheduleOutcome :=
  if j.enabled = false then .ok .disabled
  else if j.unit = "startup" then .ok .startupOnce
  else if j.unit = "months" then
    .ok (.monthly (j.day_of_month.getD 1) j.atTime)
  else if j.unit ∈ schedule_units then
    if j.unit = "weeks" then
      match j.day with
      | some d =>
          if lowerStr d ∈ weekday_names then
            .ok (.periodic (j.every.getD 1) j.unit (some (lowerStr d)) j.atTime)
          else
            .ok (.periodic (j.every.getD 1) j.unit none j.atTime)
      | none => .ok (.periodic (j.every.getD 1) j.unit none j.atTime)
    else .ok (.periodic (j.every.getD 1) j.unit none j.atTime)
  else .error ("Invalid schedule unit " ++ j.unit)

/-- The load-and-compile pipeline for one job: scheduler.py's `__main__`
obtains jobs only through `load_jobs`, which runs `validate_config` before
any job reaches `schedule_job` (scheduler_core.py lines 40-54). -/
def compile_job (j : Job) : Except String ScheduleOutcome :=
  if validate_job j then schedule_job j
  else .error "Invalid configuration"

/-- The scheduling loop of scheduler.py `__main__` (lines 198-214): schedule
each job in order.  The `for` loop has no per-job handler, so the exception
re-raised by `schedule_job` aborts the whole loop and the remaining jobs are
never scheduled (the error is caught only by the fatal top-level handler). -/
def schedule_all (jobs : List Job) : Except String (List (String × ScheduleOutcome)) :=
  match jobs with
  | [] => .ok []
  | j :: rest => do
      let o ← schedule_job j
      let os ← schedule_all rest
      .ok ((j.name, o) :: os)

/-! ### Command executor (src/scheduler_core.py `run_command`) -/

/-- The outcome of `subprocess.run(..., check=True, timeout=t)` for the job
command: normal zero-exit completion, `TimeoutExpired`, `CalledProcessError`
with a nonzero exit code, `FileNotFoundError`, or any other exception. -/
inductive ExecOutcome where
  | completed (stdout stderr : String)
  | timedOut
  | calledProcessError (returncode : Int) (stderr : String)
  | fileNotFound
  | otherError (msg : String)
deriving DecidableEq, Repr

/-- The structured result dictionary of `run_command`. -/
structure ExecResult where
  success : Bool
  stdout : String
  stderr : String
  error : Option String
deriving DecidableEq, Repr

/-- scheduler_core.py `run_command` (lines 133-211): every outcome of the
underlying `subprocess.run` call is translated into a result value — the
`except` chain ends in a catch-all — so the function returns a result for
every constructor of `ExecOutcome` and never propagates an exception. -/
def run_command (command : String) (timeout : Nat) (outcome : ExecOutcome) :
    ExecResult :=
  match outcome with
  | .completed out err => ⟨true, out, err, none⟩
  | .timedOut =>
      ⟨false, "", "", some ("Timed out after " ++ toString timeout ++ " seconds")⟩
  | .calledProcessError code err =>
      ⟨false, "", err, some ("Exit code " ++ toString code)⟩
  | .fileNotFound => ⟨false, "", "", some ("Script not found: " ++ command)⟩
  | .otherError msg => ⟨false, "", "", some msg⟩

/-- Modelled from the spec: whether the child process is still running after
`subprocess.run` resolves to the given outcome.  The repository delegates
termination to the Python standard library, which kills the child before
raising `TimeoutExpired`; the spec states the timeout case "must be
terminated, not left running", and a completed or reaped process is not
running either.  Only `otherError` leaves the process state unknown. -/
def process_left_running : ExecOutcome → Bool
  | .completed _ _ => false
  | .timedOut => false
  | .calledProcessError _ _ => false
  | .fileNotFound => false
  | .otherError _ => true

/-! ### Process supervisor (src/scheduler_core.py) -/

/-- scheduler_core.py `is_running` (lines 228-253).  Without psutil the code
falls back to testing PID-file existence; with psutil it inspects the
process and returns whether the lower-cased command line contains
`scheduler.py`, mapping both `NoSuchProcess` and `AccessDenied` to
`false`. -/
def core_is_running (hasPsutil : Bool) (pidFileExists : Bool)
    (inspect : Nat → ProcInspect) (pid : Nat) : Bool :=
  if hasPsutil = false then pidFileExists
  else
    match inspect pid with
    | .ok c => strContains (lowerStr c) "scheduler.py"
    | .noSuchProcess => false
    | .accessDenied => false

/-- scheduler_core.py `get_pid` (lines 218-225): the parsed PID-file
content; a missing file or unparsable content is `none`. -/
def get_pid (pidFileExists : Bool) (content : Option Nat) : Option Nat :=
  if pidFileExists then content else none

/-- Result of `start_scheduler`, extended with whether a process was spawned
and whether a pre-existing PID file was removed, the side effects the spec
talks about. -/
structure StartOutput where
  ok : Bool
  message : String
  pid : Option Nat
  spawned : Bool
  clearedStale : Bool
deriving DecidableEq, Repr

/-- Number of PID-file polls after spawning, scheduler_core.py line 339
(`for _ in range(10)`). -/
def START_POLL_RETRIES : Nat := 10

/-- scheduler_core.py `start_scheduler` (lines 291-351).  `pid0` is the
initial `get_pid` result and `inspect0` the process table at that moment;
if the pid is truthy and `is_running` holds, succeed without doing
anything.  Otherwise remove any existing PID file, spawn the scheduler
(`spawnRaises` models `Popen` raising), poll up to `START_POLL_RETRIES`
times for the PID file, then re-read the pid (`pidAfter`, with
`pidFileExistsAfter` and `inspect1` the state after the wait) and succeed
only if the new pid is truthy and alive. -/
def core_start_scheduler (hasPsutil : Bool)
    (pidFileExists0 : Bool) (pid0 : Option Nat) (inspect0 : Nat → ProcInspect)
    (spawnRaises : Bool)
    (pidFileExistsAfter : Bool) (pidAfter : Option Nat)
    (inspect1 : Nat → ProcInspect) : StartOutput :=
  let startAfterCleanup : StartOutput :=
    let cleared := pidFileExists0
    if spawnRaises then ⟨false, "Failed to start", none, false, cleared⟩
    else
      match get_pid pidFileExistsAfter pidAfter with
      | some np =>
          if np ≠ 0 ∧ core_is_running hasPsutil pidFileExistsAfter inspect1 np then
            ⟨true, "Scheduler started (PID: " ++ toString np ++ ")",
             some np, true, cleared⟩
          else
            ⟨false, "Scheduler failed to start - check logs", none, true, cleared⟩
      | none => ⟨false, "Scheduler failed to start - check logs", none, true, cleared⟩
  match get_pid pidFileExists0 pid0 with
  | some p =>
      if p ≠ 0 ∧ core_is_running hasPsutil pidFileExists0 inspect0 p then
        ⟨true, "Scheduler is already running (PID: " ++ toString p ++ ")",
         some p, false, false⟩
      else startAfterCleanup
  | none => startAfterCleanup

/-- Result of `stop_scheduler`, extended with whether any termination signal
was sent to a process and whether the PID file was removed. -/
structure StopOutput where
  ok : Bool
  message : String
  signalSent : Bool
  removedPidFile : Bool
deriving DecidableEq, Repr

/-- Outcome of the terminate/wait/kill sequence in `stop_scheduler` once a
live process was found. -/
inductive TermOutcome where
  | exited
  | exitedAfterKill
  | vanished
  | failed (msg : String)
deriving DecidableEq, Repr

/-- scheduler_core.py `stop_scheduler` (lines 354-406).  Without psutil the
operation refuses.  With no pid (missing or unparsable PID file) it is a
no-op success; with a pid that fails `is_running` it removes the stale PID
file and succeeds; otherwise it signals the process, escalating to a kill,
and removes the PID file on success. -/
def core_stop_scheduler (hasPsutil : Bool) (pidFileExists : Bool)
    (content : Option Nat) (inspect : Nat → ProcInspect)
    (term : TermOutcome) : StopOutput :=
  if hasPsutil = false then
    ⟨false, "psutil required for stop operation", false, false⟩
  else
    match get_pid pidFileExists content with
    | none => ⟨true, "Scheduler is not running (no PID file)", false, false⟩
    | some p =>
        if core_is_running hasPsutil pidFileExists inspect p = false then
          ⟨true, "Scheduler is not running (stale PID: " ++ toString p ++ ")",
           false, true⟩
        else
          match term with
          | .exited => ⟨true, "Scheduler stopped", true, true⟩
          | .exitedAfterKill => ⟨true, "Scheduler stopped", true, true⟩
          | .vanished => ⟨true, "Scheduler already stopped", true, true⟩
          | .failed m => ⟨false, "Failed to stop: " ++ m, true, false⟩

/-! ### Helper lemmas -/

/-- Both branches of `record_restart` store the appended-and-pruned list. -/
lemma record_restart_fst_restarts (now : Int) (h : RestartHistory) :
    (record_restart now h).1.restarts =
      (h.restarts ++ [now]).filter
        (fun dt => decide (now - RESTART_WINDOW_MINUTES < dt)) := by
  simp only [record_restart]
  split <;> rfl

/-- A backoff deadline stored by `record_restart` is either inherited or
freshly set to `now + BACKOFF_MINUTES`. -/
lemma record_restart_fst_backoff (now : Int) (h : RestartHistory) (bu : Int)
    (hb : (record_restart now h).1.backoff_until = some bu) :
    h.backoff_until = some bu ∨ bu = now + BACKOFF_MINUTES := by
  simp only [record_restart] at hb
  split at hb
  · exact Or.inr (by simpa using hb.symm)
  · exact Or.inl (by simpa using hb)

/-- Appending the current time to a sorted list of past times is sorted. -/
lemma sorted_append_now (now : Int) (l : List Int)
    (hsorted : l.Sorted (· ≤ ·)) (hpast : ∀ t ∈ l, t ≤ now) :
    (l ++ [now]).Sorted (· ≤ ·) := by
  rw [List.Sorted, List.pairwise_append]
  refine ⟨hsorted, List.pairwise_singleton _ _, ?_⟩
  intro a ha b hb
  rw [List.mem_singleton] at hb
  subst hb
  exact hpast a ha

/-- The pruned restart list is sorted and all its entries lie inside the
window and in the past. -/
lemma record_restart_restarts_spec (now : Int) (h : RestartHistory)
    (hsorted : h.restarts.Sorted (· ≤ ·)) (hpast : ∀ t ∈ h.restarts, t ≤ now) :
    (record_restart now h).1.restarts.Sorted (· ≤ ·) ∧
    (∀ t ∈ (record_restart now h).1.restarts,
      now - RESTART_WINDOW_MINUTES < t) ∧
    (∀ t ∈ (record_restart now h).1.restarts, t ≤ now) := by
  rw [record_restart_fst_restarts]
  refine ⟨(sorted_append_now now h.restarts hsorted hpast).filter _, ?_, ?_⟩
  · intro t ht
    have := (List.mem_filter.mp ht).2
    simpa using this
  · intro t ht
    have hmem := (List.mem_filter.mp ht).1
    rcases List.mem_append.mp hmem with hl | hr
    · exact hpast t hl
    · rw [List.mem_singleton] at hr
      subst hr
      exact le_refl _

/-! ### Claim theorems -/

/-- Claim C1: if, after appending the current timestamp and pruning entries
outside the 15-minute window, at least 5 restarts remain, then
`record_restart` sets `backoff_until = now + 30` (strictly greater than
`now`) and reports not-to-start; the watchdog start path persists exactly
that history and spawns nothing this cycle; and any later check while the
backoff deadline is still in the future does no liveness probe and spawns
nothing. -/
theorem restart_threshold_triggers_backoff (h : RestartHistory) (now now' : Int)
    (pf : Option Nat) (inspect : Nat → ProcInspect) (sr sr' : Bool)
    (hb : h.backoff_until = none)
    (hthr : MAX_RESTARTS_IN_WINDOW ≤
      ((h.restarts ++ [now]).filter
        (fun dt => decide (now - RESTART_WINDOW_MINUTES < dt))).length)
    (hnext : now' < now + BACKOFF_MINUTES) :
    (record_restart now h).2 = false ∧
    (record_restart now h).1.backoff_until = some (now + BACKOFF_MINUTES) ∧
    now < now + BACKOFF_MINUTES ∧
    watchdog_start now h sr = ((record_restart now h).1, false, false) ∧
    (check_and_restart now' (record_restart now h).1 pf inspect sr').probed = false ∧
    (check_and_restart now' (record_restart now h).1 pf inspect sr').spawned = false := by
  have hrec : record_restart now h =
      ({ restarts := (h.restarts ++ [now]).filter
          (fun dt => decide (now - RESTART_WINDOW_MINUTES < dt)),
         backoff_until := some (now + BACKOFF_MINUTES) }, false) := by
    simp only [record_restart]
    rw [if_pos hthr]
  have hib : is_in_backoff now h = (h, false) := by
    simp [is_in_backoff, hb]
  have hib' : is_in_backoff now' (record_restart now h).1 =
      ((record_restart now h).1, true) := by
    rw [hrec]
    simp [is_in_backoff, hnext]
  refine ⟨by rw [hrec], by rw [hrec], by linarith [show (0:Int) < BACKOFF_MINUTES by norm_num [BACKOFF_MINUTES]], ?_, ?_, ?_⟩
  · simp only [watchdog_start, hib]
    simp [hrec]
  · simp [check_and_restart, hib']
  · simp [check_and_restart, hib']

/-- Witness for the C1 theorem at a concrete five-restart history. -/
theorem restart_threshold_triggers_backoff_witness :
    (record_restart 100 ⟨[90, 92, 94, 96], none⟩).2 = false ∧
    (record_restart 100 ⟨[90, 92, 94, 96], none⟩).1.backoff_until = some 130 ∧
    (100 : Int) < 130 ∧
    watchdog_start 100 ⟨[90, 92, 94, 96], none⟩ false =
      ((record_restart 100 ⟨[90, 92, 94, 96], none⟩).1, false, false) ∧
    (check_and_restart 110 (record_restart 100 ⟨[90, 92, 94, 96], none⟩).1
      (some 3) (fun _ => ProcInspect.noSuchProcess) false).probed = false ∧
    (check_and_restart 110 (record_restart 100 ⟨[90, 92, 94, 96], none⟩).1
      (some 3) (fun _ => ProcInspect.noSuchProcess) false).spawned = false := by
  obtain ⟨a, b, _, d, e, f⟩ := restart_threshold_triggers_backoff
    ⟨[90, 92, 94, 96], none⟩ 100 110
    (some 3) (fun _ => ProcInspect.noSuchProcess) false false rfl
    (by decide) (by decide)
  refine ⟨a, ?_, by decide, d, e, f⟩
  rw [b]
  rfl

/-- Claim C2 (the spec is right, the code aborts): scheduling a list whose
first job has an invalid unit ends in an error and the second, valid job is
never scheduled — the same second job alone schedules fine.  The `for` loop
in scheduler.py lines 205-208 has no per-job handler and `schedule_job`
re-raises (lines 178-183), so one bad job prevents all later jobs. -/
theorem compile_error_aborts_remaining_jobs :
    schedule_all
      [⟨"bad", "cmd1", true, "fortnights", some 1, none, none, none⟩,
       ⟨"good", "cmd2", true, "minutes", some 5, none, none, none⟩] =
      .error "Invalid schedule unit fortnights" ∧
    schedule_all [⟨"good", "cmd2", true, "minutes", some 5, none, none, none⟩] =
      .ok [("good", .periodic 5 "minutes" none none)] :=
  ⟨rfl, rfl⟩

/-- Claim C5: once the stored backoff deadline is strictly in the past, a
check clears `backoff_until`, resets `restarts` to empty and persists that
(the first component of `is_in_backoff` is the saved history), and the
whole check then behaves exactly as it would from the cleared state — in
particular it probes liveness whenever a pid was read from the PID file. -/
theorem backoff_expiry_clears_and_resumes (h : RestartHistory) (now bu : Int)
    (pf : Option Nat) (inspect : Nat → ProcInspect) (sr : Bool)
    (hbu : h.backoff_until = some bu) (hpast : bu < now) :
    is_in_backoff now h = (⟨[], none⟩, false) ∧
    check_and_restart now h pf inspect sr =
      check_and_restart now ⟨[], none⟩ pf inspect sr ∧
    (∀ p, pf = some p → (check_and_restart now h pf inspect sr).probed = true) := by
  have hnl : ¬ now < bu := not_lt.mpr (le_of_lt hpast)
  have hib : is_in_backoff now h = (⟨[], none⟩, false) := by
    simp [is_in_backoff, hbu, hnl]
  have hib0 : is_in_backoff now (⟨[], none⟩ : RestartHistory) =
      (⟨[], none⟩, false) := rfl
  refine ⟨hib, ?_, ?_⟩
  · simp only [check_and_restart, hib, hib0]
  · intro p hp
    subst hp
    simp only [check_and_restart, hib]
    rw [if_neg (by decide : ¬ ((({ restarts := [], backoff_until := none } :
      RestartHistory), false).2 = true))]
    split
    · rfl
    · rfl

/-- Witness for the C5 theorem at a concrete expired-backoff history. -/
theorem backoff_expiry_clears_and_resumes_witness :
    is_in_backoff 50 ⟨[1, 2], some 40⟩ = (⟨[], none⟩, false) ∧
    check_and_restart 50 ⟨[1, 2], some 40⟩ (some 9)
        (fun _ => ProcInspect.ok "python scheduler.py") false =
      check_and_restart 50 ⟨[], none⟩ (some 9)
        (fun _ => ProcInspect.ok "python scheduler.py") false ∧
    (check_and_restart 50 ⟨[1, 2], some 40⟩ (some 9)
        (fun _ => ProcInspect.ok "python scheduler.py") false).probed = true := by
  have h := backoff_expiry_clears_and_resumes ⟨[1, 2], some 40⟩ 50 40 (some 9)
    (fun _ => ProcInspect.ok "python scheduler.py") false rfl (by decide)
  exact ⟨h.1, h.2.1, h.2.2 9 rfl⟩

/-- On a history with no backoff set, the watchdog start path persists
exactly what `record_restart` produced. -/
lemma watchdog_start_history (now : Int) (h1 : RestartHistory) (sr : Bool)
    (hb : h1.backoff_until = none) :
    (watchdog_start now h1 sr).1 = (record_restart now h1).1 := by
  have hib : is_in_backoff now h1 = (h1, false) := by simp [is_in_backoff, hb]
  rcases hrr : record_restart now h1 with ⟨hh, b⟩
  cases b <;> cases sr <;> simp [watchdog_start, hib, hrr]

/-- The history persisted at the end of a check is the input history, the
cleared history, or the output of `record_restart` on one of those two. -/
lemma check_history_cases (now : Int) (h : RestartHistory) (pf : Option Nat)
    (inspect : Nat → ProcInspect) (sr : Bool) :
    (check_and_restart now h pf inspect sr).history = h ∨
    (check_and_restart now h pf inspect sr).history = ⟨[], none⟩ ∨
    (check_and_restart now h pf inspect sr).history = (record_restart now h).1 ∨
    (check_and_restart now h pf inspect sr).history =
      (record_restart now (⟨[], none⟩ : RestartHistory)).1 := by
  rcases hbo : h.backoff_until with _ | bu
  · have hib : is_in_backoff now h = (h, false) := by simp [is_in_backoff, hbo]
    have hws := watchdog_start_history now h sr hbo
    cases pf with
    | none =>
        refine Or.inr (Or.inr (Or.inl ?_))
        simp [check_and_restart, hib, hws]
    | some p =>
        by_cases hrun : is_process_running inspect p = true
        · exact Or.inl (by simp [check_and_restart, hib, hrun])
        · refine Or.inr (Or.inr (Or.inl ?_))
          simp [check_and_restart, hib, hrun, hws]
  · by_cases hlt : now < bu
    · have hib : is_in_backoff now h = (h, true) := by
        simp [is_in_backoff, hbo, hlt]
      exact Or.inl (by simp [check_and_restart, hib])
    · have hib : is_in_backoff now h = (⟨[], none⟩, false) := by
        simp [is_in_backoff, hbo, hlt]
      have hws := watchdog_start_history now ⟨[], none⟩ sr rfl
      cases pf with
      | none =>
          refine Or.inr (Or.inr (Or.inr ?_))
          simp [check_and_restart, hib, hws]
      | some p =>
          by_cases hrun : is_process_running inspect p = true
          · exact Or.inr (Or.inl (by simp [check_and_restart, hib, hrun]))
          · refine Or.inr (Or.inr (Or.inr ?_))
            simp [check_and_restart, hib, hrun, hws]

/-- The backoff duration is positive. -/
lemma backoff_pos : (0 : Int) < BACKOFF_MINUTES := by norm_num [BACKOFF_MINUTES]

/-- Claim C4 counterexample: a check at time 16 that finds the scheduler
alive leaves the persisted history untouched, so it still contains the
restart at time 0, which is older than the 15-minute window at the end of
that check (the cutoff `16 - 15` is strictly above it). -/
theorem stale_window_entry_counterexample :
    (check_and_restart 16 ⟨[0], none⟩ (some 3)
      (fun _ => ProcInspect.ok "python3 scheduler.py") false).history.restarts
      = [0] ∧
    (0 : Int) < 16 - RESTART_WINDOW_MINUTES := by
  exact ⟨by decide, by decide⟩

/-- Claim C4 as amended: starting from a well-formed history (sorted, all
timestamps in the past), the history persisted at the end of any check is
sorted ascending; its restart list is either exactly the previous one
(checks that do not rewrite it) or contains only timestamps inside the
15-minute window ending at the check's time; and any backoff deadline not
inherited from the previous history equals `now + BACKOFF_MINUTES` and is
strictly in the future at the moment it is set. -/
theorem watchdog_check_history_invariant (h : RestartHistory) (now : Int)
    (pf : Option Nat) (inspect : Nat → ProcInspect) (sr : Bool)
    (hsorted : h.restarts.Sorted (· ≤ ·))
    (hpast : ∀ t ∈ h.restarts, t ≤ now) :
    (check_and_restart now h pf inspect sr).history.restarts.Sorted (· ≤ ·) ∧
    ((check_and_restart now h pf inspect sr).history.restarts = h.restarts ∨
      ∀ t ∈ (check_and_restart now h pf inspect sr).history.restarts,
        now - RESTART_WINDOW_MINUTES < t) ∧
    (∀ bu, (check_and_restart now h pf inspect sr).history.backoff_until
        = some bu →
      h.backoff_until = some bu ∨
        (bu = now + BACKOFF_MINUTES ∧ now < bu)) := by
  have hspec := record_restart_restarts_spec now h hsorted hpast
  have hspec0 := record_restart_restarts_spec now ⟨[], none⟩
    List.sorted_nil (by intro t ht; simp at ht)
  rcases check_history_cases now h pf inspect sr with hc | hc | hc | hc <;>
    rw [hc]
  · exact ⟨hsorted, Or.inl rfl, fun bu hb => Or.inl hb⟩
  · refine ⟨List.sorted_nil, Or.inr ?_, fun bu hb => by simp at hb⟩
    intro t ht
    simp at ht
  · refine ⟨hspec.1, Or.inr hspec.2.1, ?_⟩
    intro bu hb
    rcases record_restart_fst_backoff now h bu hb with h1 | h1
    · exact Or.inl h1
    · refine Or.inr ⟨h1, ?_⟩
      rw [h1]
      linarith [backoff_pos]
  · refine ⟨hspec0.1, Or.inr hspec0.2.1, ?_⟩
    intro bu hb
    rcases record_restart_fst_backoff now ⟨[], none⟩ bu hb with h1 | h1
    · simp at h1
    · refine Or.inr ⟨h1, ?_⟩
      rw [h1]
      linarith [backoff_pos]

/-- Witness for the amended C4 theorem at a concrete restarting check. -/
theorem watchdog_check_history_invariant_witness :
    (check_and_restart 100 ⟨[90], none⟩ none
      (fun _ => ProcInspect.noSuchProcess) false).history.restarts.Sorted
        (· ≤ ·) ∧
    ((check_and_restart 100 ⟨[90], none⟩ none
        (fun _ => ProcInspect.noSuchProcess) false).history.restarts = [90] ∨
      ∀ t ∈ (check_and_restart 100 ⟨[90], none⟩ none
        (fun _ => ProcInspect.noSuchProcess) false).history.restarts,
          100 - RESTART_WINDOW_MINUTES < t) ∧
    (∀ bu, (check_and_restart 100 ⟨[90], none⟩ none
        (fun _ => ProcInspect.noSuchProcess) false).history.backoff_until
          = some bu →
      (⟨[90], none⟩ : RestartHistory).backoff_until = some bu ∨
        (bu = 100 + BACKOFF_MINUTES ∧ (100 : Int) < bu)) :=
  watchdog_check_history_invariant ⟨[90], none⟩ 100 none
    (fun _ => ProcInspect.noSuchProcess) false (List.sorted_singleton 90)
    (by intro t ht; simp at ht; omega)

/-- Every weekday name in the schema's allowed list is already lower-case. -/
lemma weekday_mem_lower {d : String} (hd : d ∈ weekday_names) :
    lowerStr d = d := by
  simp only [weekday_names, List.mem_cons, List.mem_singleton,
    List.not_mem_nil, or_false] at hd
  rcases hd with rfl | rfl | rfl | rfl | rfl | rfl | rfl <;> decide

/-- Claim C3: a weekly job whose `day` is not a weekday name even after
lower-casing cannot reach `schedule_job`'s silent fallback: the load
pipeline validates every job (scheduler_core.py `load_jobs` runs
`validate_config`), and the schema's `allowed` list rejects the day, so
compiling fails with an error and no trigger is produced. -/
theorem unrecognized_weekday_rejected (j : Job) (d : String)
    (_hu : j.unit = "weeks") (hd : j.day = some d)
    (hun : lowerStr d ∉ weekday_names) :
    compile_job j = .error "Invalid configuration" := by
  have hdmem : d ∉ weekday_names := by
    intro hmem
    exact hun (by rw [weekday_mem_lower hmem]; exact hmem)
  have hv : validate_job j = false := by
    simp [validate_job, hd, hdmem]
  simp [compile_job, hv]

/-- Witness for the C3 theorem at the unrecognised day `Someday`. -/
theorem unrecognized_weekday_rejected_witness :
    compile_job ⟨"w", "c", true, "weeks", some 1, none, some "Someday", none⟩ =
      .error "Invalid configuration" :=
  unrecognized_weekday_rejected _ "Someday" rfl rfl (by decide)

/-- Claim C6: `run_command` maps every outcome of the underlying process
call to a structured result (success holds exactly when no error is
recorded), and on a timeout the result reports failure with a timeout
message while the child process is not left running. -/
theorem run_command_total_and_timeout (command : String) (timeout : Nat)
    (o : ExecOutcome) :
    ((run_command command timeout o).success = true ↔
      (run_command command timeout o).error = none) ∧
    (o = .timedOut →
      (run_command command timeout o).success = false ∧
      (run_command command timeout o).error =
        some ("Timed out after " ++ toString timeout ++ " seconds") ∧
      process_left_running o = false) := by
  cases o <;> simp [run_command, process_left_running]

/-- Witness for the C6 theorem: a 1-second timeout on a command sleeping
5 seconds. -/
theorem run_command_total_and_timeout_witness :
    (run_command "sleep 5" 1 .timedOut).success = false ∧
    (run_command "sleep 5" 1 .timedOut).error =
      some "Timed out after 1 seconds" ∧
    process_left_running .timedOut = false := by
  have h := (run_command_total_and_timeout "sleep 5" 1 .timedOut).2 rfl
  simpa using h

/-- Claim C7: with a live scheduler pid in the PID file, `start_scheduler`
succeeds without spawning or deleting anything; otherwise it clears the PID
file exactly when one existed, spawns the scheduler when `Popen` does not
raise, and — after the bounded `START_POLL_RETRIES` polling loop — returns
failure with no pid when the PID file still does not yield a pid. -/
theorem supervisor_start_contract (hasPsutil pidFileExists0 : Bool)
    (pid0 : Option Nat) (inspect0 : Nat → ProcInspect) (spawnRaises : Bool)
    (pidFileExistsAfter : Bool) (pidAfter : Option Nat)
    (inspect1 : Nat → ProcInspect) :
    (∀ p, get_pid pidFileExists0 pid0 = some p → p ≠ 0 →
      core_is_running hasPsutil pidFileExists0 inspect0 p = true →
      core_start_scheduler hasPsutil pidFileExists0 pid0 inspect0 spawnRaises
          pidFileExistsAfter pidAfter inspect1 =
        ⟨true, "Scheduler is already running (PID: " ++ toString p ++ ")",
         some p, false, false⟩) ∧
    ((∀ p, get_pid pidFileExists0 pid0 = some p →
        ¬(p ≠ 0 ∧ core_is_running hasPsutil pidFileExists0 inspect0 p = true)) →
      (core_start_scheduler hasPsutil pidFileExists0 pid0 inspect0 spawnRaises
          pidFileExistsAfter pidAfter inspect1).clearedStale = pidFileExists0 ∧
      (spawnRaises = false →
        (core_start_scheduler hasPsutil pidFileExists0 pid0 inspect0 spawnRaises
          pidFileExistsAfter pidAfter inspect1).spawned = true) ∧
      (spawnRaises = false → get_pid pidFileExistsAfter pidAfter = none →
        (core_start_scheduler hasPsutil pidFileExists0 pid0 inspect0 spawnRaises
          pidFileExistsAfter pidAfter inspect1).ok = false ∧
        (core_start_scheduler hasPsutil pidFileExists0 pid0 inspect0 spawnRaises
          pidFileExistsAfter pidAfter inspect1).pid = none)) := by
  constructor
  · intro p hp hp0 hrun
    simp only [core_start_scheduler, hp]
    rw [if_pos ⟨hp0, hrun⟩]
  · intro hna
    rcases hp : get_pid pidFileExists0 pid0 with _ | p
    · refine ⟨?_, ?_, ?_⟩
      · cases spawnRaises <;>
          rcases hpa : get_pid pidFileExistsAfter pidAfter with _ | np <;>
          simp [core_start_scheduler, hp, hpa] <;> split <;> rfl
      · intro hsr
        subst hsr
        rcases hpa : get_pid pidFileExistsAfter pidAfter with _ | np <;>
          simp [core_start_scheduler, hp, hpa] <;> split <;> rfl
      · intro hsr hpa
        subst hsr
        simp [core_start_scheduler, hp, hpa]
    · have hcond := hna p hp
      refine ⟨?_, ?_, ?_⟩
      · cases spawnRaises <;>
          rcases hpa : get_pid pidFileExistsAfter pidAfter with _ | np <;>
          simp [core_start_scheduler, hp, hpa, hcond] <;> split <;> rfl
      · intro hsr
        subst hsr
        rcases hpa : get_pid pidFileExistsAfter pidAfter with _ | np <;>
          simp [core_start_scheduler, hp, hpa, hcond] <;> split <;> rfl
      · intro hsr hpa
        subst hsr
        simp [core_start_scheduler, hp, hpa, hcond]

/-- Witness for the C7 theorem: an already-running scheduler and a failed
cold start, at concrete states. -/
theorem supervisor_start_contract_witness :
    core_start_scheduler true true (some 7)
        (fun _ => ProcInspect.ok "python scheduler.py") false true (some 7)
        (fun _ => ProcInspect.ok "python scheduler.py") =
      ⟨true, "Scheduler is already running (PID: " ++ toString 7 ++ ")",
       some 7, false, false⟩ ∧
    (core_start_scheduler true false none (fun _ => ProcInspect.noSuchProcess)
        false false none (fun _ => ProcInspect.noSuchProcess)).ok = false ∧
    (core_start_scheduler true false none (fun _ => ProcInspect.noSuchProcess)
        false false none (fun _ => ProcInspect.noSuchProcess)).pid = none := by
  refine ⟨?_, ?_⟩
  · exact (supervisor_start_contract true true (some 7)
      (fun _ => ProcInspect.ok "python scheduler.py") false true (some 7)
      (fun _ => ProcInspect.ok "python scheduler.py")).1 7 rfl (by decide)
      (by decide)
  · exact ((supervisor_start_contract true false none
      (fun _ => ProcInspect.noSuchProcess) false false none
      (fun _ => ProcInspect.noSuchProcess)).2
      (by intro p hp; simp [get_pid] at hp)).2.2 rfl rfl

/-- Claim C8: with psutil available, `stop_scheduler` on a missing PID file
succeeds with the "not running" message and sends no signal; and when the
PID file holds a pid that fails the liveness check it removes the stale
file, sends no signal and still succeeds. -/
theorem supervisor_stop_contract (pidFileExists : Bool) (content : Option Nat)
    (inspect : Nat → ProcInspect) (term : TermOutcome) :
    (pidFileExists = false →
      core_stop_scheduler true pidFileExists content inspect term =
        ⟨true, "Scheduler is not running (no PID file)", false, false⟩) ∧
    (∀ p, get_pid pidFileExists content = some p →
      core_is_running true pidFileExists inspect p = false →
      core_stop_scheduler true pidFileExists content inspect term =
        ⟨true, "Scheduler is not running (stale PID: " ++ toString p ++ ")",
         false, true⟩) := by
  constructor
  · intro hpf
    subst hpf
    simp [core_stop_scheduler, get_pid]
  · intro p hp hdead
    simp [core_stop_scheduler, hp, hdead]

/-- Witness for the C8 theorem: no PID file, and a stale pid 7. -/
theorem supervisor_stop_contract_witness :
    core_stop_scheduler true false none (fun _ => ProcInspect.noSuchProcess)
        .exited =
      ⟨true, "Scheduler is not running (no PID file)", false, false⟩ ∧
    core_stop_scheduler true true (some 7) (fun _ => ProcInspect.noSuchProcess)
        .exited =
      ⟨true, "Scheduler is not running (stale PID: " ++ toString 7 ++ ")",
       false, true⟩ := by
  refine ⟨?_, ?_⟩
  · exact (supervisor_stop_contract false none
      (fun _ => ProcInspect.noSuchProcess) .exited).1 rfl
  · exact (supervisor_stop_contract true (some 7)
      (fun _ => ProcInspect.noSuchProcess) .exited).2 7 rfl (by decide)

/-- Claim C9: with psutil available, the supervisor's liveness check
returns true only when inspecting the pid finds a process whose lower-cased
command line contains `scheduler.py`; in particular it returns false for an
existing process whose command line does not. -/
theorem liveness_check_requires_identity (pidFileExists : Bool)
    (inspect : Nat → ProcInspect) (pid : Nat) :
    (core_is_running true pidFileExists inspect pid = true →
      ∃ c, inspect pid = ProcInspect.ok c ∧
        strContains (lowerStr c) "scheduler.py" = true) ∧
    (∀ c, inspect pid = ProcInspect.ok c →
      strContains (lowerStr c) "scheduler.py" = false →
      core_is_running true pidFileExists inspect pid = false) := by
  constructor
  · intro hrun
    rcases hi : inspect pid with c | _ | _ <;>
      simp [core_is_running, hi] at hrun
    · exact ⟨c, rfl, hrun⟩
  · intro c hi hno
    simp [core_is_running, hi, hno]

/-- Witness for the C9 theorem: an existing pid whose command line is an
unrelated program. -/
theorem liveness_check_requires_identity_witness :
    core_is_running true true (fun _ => ProcInspect.ok "python evil.py") 42 =
      false :=
  (liveness_check_requires_identity true
    (fun _ => ProcInspect.ok "python evil.py") 42).2 "python evil.py" rfl
    (by decide)

/-- Claim C10: on a pid whose inspection is denied, the supervisor's
`is_running` answers false while the watchdog's `is_process_running`
answers true, so the two liveness checks are different functions of the
pid. -/
theorem access_denied_checks_diverge (pidFileExists : Bool)
    (inspect : Nat → ProcInspect) (pid : Nat)
    (had : inspect pid = ProcInspect.accessDenied) :
    core_is_running true pidFileExists inspect pid = false ∧
    is_process_running inspect pid = true ∧
    (fun q => core_is_running true pidFileExists inspect q) ≠
      is_process_running inspect := by
  have h1 : core_is_running true pidFileExists inspect pid = false := by
    simp [core_is_running, had]
  have h2 : is_process_running inspect pid = true := by
    simp [is_process_running, had]
  refine ⟨h1, h2, fun heq => ?_⟩
  have hpt := congrFun heq pid
  rw [h1, h2] at hpt
  exact Bool.noConfusion hpt

/-- Witness for the C10 theorem at a process table that denies access to
every pid. -/
theorem access_denied_checks_diverge_witness :
    core_is_running true false (fun _ => ProcInspect.accessDenied) 5 = false ∧
    is_process_running (fun _ => ProcInspect.accessDenied) 5 = true ∧
    (fun q => core_is_running true false
      (fun _ => ProcInspect.accessDenied) q) ≠
      is_process_running (fun _ => ProcInspect.accessDenied) :=
  access_denied_checks_diverge false (fun _ => ProcInspect.accessDenied) 5 rfl

end TaskSched
